import Mathlib

/-!
Shallow embedding of the UTS backend's authentication service and users
controller, together with proofs about the login-throttling state machine
and the users-list pagination.

Sources embedded:
* `src/api/components/authentication/authentication-service.js`
  (`checkLoginCredentials`) and its repository
  (`getUserByEmail`, `loginAttempt`, `loginSuccess`, `resetAttempt`);
* the users controller (`getUsers`, `isValidSortField`, `isValidSortOrder`,
  `isValidSearchField`).

Timestamps are modelled as `Int` milliseconds (the value of
`Date.prototype.getTime`).  The external collaborators — the password
matcher (`passwordMatched`) and the token issuer (`generateToken`) — are
parameters of the embedded functions, as they are opaque collaborators of
the service.  The Mongo collection is modelled as a `List User`;
`User.findOne` returns the first match and `User.updateOne` updates the
first match, which the embedding mirrors.
-/

namespace UTS

/-- A stored user record.  `updatedOn` is nullable (`none` until first set),
matching the Mongoose document where the field may be absent. -/
structure User where
  id : String
  email : String
  name : String
  password : String
  attempt : Int
  updatedOn : Option Int
deriving DecidableEq, Repr

/-- `authentication-repository.getUserByEmail`: `User.findOne({ email })` —
the first record whose email matches, or `null`. -/
def getUserByEmail (db : List User) (email : String) : Option User :=
  db.find? (fun u => u.email == email)

/-- `User.updateOne(filter, update)`: apply `f` to the first record matching
`p`, leaving the rest of the collection unchanged. -/
def updateFirst (p : User → Bool) (f : User → User) : List User → List User
  | [] => []
  | u :: us => if p u then f u :: us else u :: updateFirst p f us

/-- `authentication-repository.loginAttempt(email, attempt)`:
`updateOne({email}, {$set: {updatedOn: now, attempt: attempt}})`. -/
def loginAttempt (db : List User) (email : String) (attempt : Int) (now : Int) :
    List User :=
  updateFirst (fun u => u.email == email)
    (fun u => { u with updatedOn := some now, attempt := attempt }) db

/-- `authentication-repository.loginSuccess(email)`:
`updateOne({email}, {$set: {attempt: 0}})` — note it does NOT touch
`updatedOn`. -/
def loginSuccess (db : List User) (email : String) : List User :=
  updateFirst (fun u => u.email == email) (fun u => { u with attempt := 0 }) db

/-- `authentication-repository.resetAttempt(email)`:
`updateOne({email}, {$set: {attempt: 0}})` — identical to `loginSuccess`,
and it also does NOT touch `updatedOn`. -/
def resetAttempt (db : List User) (email : String) : List User :=
  updateFirst (fun u => u.email == email) (fun u => { u with attempt := 0 }) db

/-- The object returned by a successful `checkLoginCredentials`:
`{email, name, user_id, token}`. -/
structure SessionDescriptor where
  email : String
  name : String
  user_id : String
  token : String
deriving DecidableEq, Repr

/-- Outcome of a call to `checkLoginCredentials`:
* `success d` — the object `{email, name, user_id, token}` is returned;
* `noSession` — the function returns `null`;
* `lockedOut` — `throw errorResponder(FORBIDDEN, 'Too many failed login
  attempts, ...')`;
* `typeError` — an unhandled JavaScript `TypeError` from reading a property
  of `null` (`user.updatedOn` on line 16 or `user2.attempt` on line 54). -/
inductive LoginResult where
  | success (d : SessionDescriptor)
  | noSession
  | lockedOut
  | typeError
deriving DecidableEq, Repr

/-- Lines 16–32 of `checkLoginCredentials` (the lockout evaluation), for a
non-null `user`.  Returns `none` when the `FORBIDDEN` error is thrown, and
`some db'` (the possibly-updated collection) when execution falls through.
`after30Minutes` is `new Date(user.updatedOn.getTime() + 1*10*1000)`, i.e.
the window is 10 000 ms despite the variable's name. -/
def lockoutEval (now : Int) (db : List User) (email : String) (user : User) :
    Option (List User) :=
  match user.updatedOn with
  | none => some db          -- `if (user.updatedOn)` is falsy: whole block skipped
  | some t =>
    let after30Minutes := t + 1 * 10 * 1000
    if user.attempt > 5 ∧ now < after30Minutes then
      none                   -- `after30Minutes > now`: throw FORBIDDEN
    else if user.attempt > 5 ∧ after30Minutes < now then
      some (resetAttempt db email)   -- `after30Minutes < now`: reset
    else
      some db                -- neither strict comparison holds (e.g. equality)

/-- Lines 53–57: the failure path.  Re-fetches the user (`user2`), then
`loginAttempt(email, user2.attempt + 1)`; reading `user2.attempt` on a
`null` lookup is a `TypeError`. -/
def loginFailurePath (now : Int) (db : List User) (email : String) :
    LoginResult × List User :=
  match getUserByEmail db email with
  | none => (.typeError, db)
  | some user2 => (.noSession, loginAttempt db email (user2.attempt + 1) now)

/-- Lines 34–57 of `checkLoginCredentials`: the password check and what
follows it.  `user` is the value bound on line 14 (possibly `null`), `db1`
the collection state after the lockout evaluation.  The filler credential
of line 38 keeps the timing uniform when the account does not exist. -/
def passwordPhase (matcher : String → String → Bool)
    (tokenGen : String → String → String) (now : Int) (db1 : List User)
    (email password : String) (user : Option User) : LoginResult × List User :=
  let userPassword := match user with
    | some u => u.password
    | none => "<RANDOM_PASSWORD_FILLER>"
  let passwordChecked := matcher password userPassword
  match user with
  | some u =>
    if passwordChecked then
      (.success { email := u.email, name := u.name, user_id := u.id,
                  token := tokenGen u.email u.id }, db1)
    else
      loginFailurePath now db1 email
  | none => loginFailurePath now db1 email   -- `user && passwordChecked` falsy

/-- `checkLoginCredentials(email, password)` of
`authentication-service.js`, lines 13–58.  The collection is threaded
explicitly; `now` is the current time in ms.  When `getUserByEmail`
returns `null`, line 16 reads `user.updatedOn` on `null` and the call dies
with a `TypeError` before any password check. -/
def checkLoginCredentials (matcher : String → String → Bool)
    (tokenGen : String → String → String) (now : Int) (db : List User)
    (email password : String) : LoginResult × List User :=
  match getUserByEmail db email with
  | none => (.typeError, db)
  | some user =>
    match lockoutEval now db email user with
    | none => (.lockedOut, db)
    | some db1 => passwordPhase matcher tokenGen now db1 email password (some user)

/-- `isValidSortField(field)` of the users controller: returns the field
when whitelisted, else the default `'email'`. -/
def isValidSortField (field : String) : String :=
  if field = "email" ∨ field = "name" then field else "email"

/-- `isValidSortOrder(order)`: returns the order when it is `'asc'` or
`'desc'`, else the default `'asc'`. -/
def isValidSortOrder (order : String) : String :=
  if order = "asc" ∨ order = "desc" then order else "asc"

/-- `isValidSearchField(field)`: returns the field when whitelisted, else
`null`. -/
def isValidSearchField (field : String) : Option String :=
  if field = "email" ∨ field = "name" then some field else none

/-- A user as listed by the controller; only the two whitelisted fields
matter for sorting. -/
structure ListedUser where
  email : String
  name : String
deriving DecidableEq, Repr

/-- `a[sortField]` for a listed user.  Behind `isValidSortField` the key is
always `"email"` or `"name"`; any other key would read `undefined` in
JavaScript (modelled as `""`, unreachable from `getUsers`). -/
def userField (u : ListedUser) (field : String) : String :=
  if field = "name" then u.name else if field = "email" then u.email else ""

/-- The sort comparator of lines 43–47 as a boolean "comes before or equal"
relation: ascending compares `a[sortField]` against `b[sortField]`,
descending the other way round (`localeCompare`, modelled by the code-unit
order on strings). -/
def sortLe (sortField sortOrder : String) (a b : ListedUser) : Bool :=
  if sortOrder = "asc" then
    decide (userField a sortField ≤ userField b sortField)
  else
    decide (userField b sortField ≤ userField a sortField)

/-- Insert into a list sorted by `le`. -/
def insertSorted (le : ListedUser → ListedUser → Bool) (u : ListedUser) :
    List ListedUser → List ListedUser
  | [] => [u]
  | v :: vs => if le u v then u :: v :: vs else v :: insertSorted le u vs

/-- `Array.prototype.sort` with the comparator of lines 43–47, modelled as
insertion sort by `le`. -/
def sortUsers (le : ListedUser → ListedUser → Bool) :
    List ListedUser → List ListedUser
  | [] => []
  | u :: us => insertSorted le u (sortUsers le us)

/-- JavaScript coercion of a possibly-`null` number to a number in
arithmetic and relational contexts: `null` becomes `0`. -/
def toNum (x : Option Int) : Int := x.getD 0

/-- `parseInt(request.query.page_number) || null` when the query parameter
is absent: `parseInt(undefined)` is `NaN` and `NaN || null` is `null`. -/
def absentPageParam : Option Int := none

/-- Clamp a (possibly negative) slice index to an actual position, per the
ECMAScript `Array.prototype.slice` specification: a negative index counts
from the end (floored at 0), a non-negative one is capped at the length. -/
def jsSliceBound (len : Nat) (i : Int) : Nat :=
  if i < 0 then ((len : Int) + i).toNat else min i.toNat len

/-- `l.slice(s, e)` on an array modelled as a list. -/
def jsSlice (l : List ListedUser) (s e : Int) : List ListedUser :=
  (l.take (jsSliceBound l.length e)).drop (jsSliceBound l.length s)

/-- `Math.ceil(a / b)` for integer `a`, `b` with `b ≠ 0` (exact rational
division then ceiling). -/
def jsCeilDiv (a b : Int) : Int := -((-a).fdiv b)

/-- The users-list response object of lines 65–73.  `total_pages` is
`Math.ceil(totalUsers / pageSize)`; when `pageSize` coerces to `0` the
JavaScript value is `Infinity` (or `NaN` for `0/0`), modelled as `none`. -/
structure UsersListResponse where
  page_number : Option Int
  page_size : Option Int
  count : Nat
  total_pages : Option Int
  has_previous_page : Bool
  has_next_page : Bool
  users : List ListedUser
deriving DecidableEq, Repr

/-- Lines 43–73 of the users controller's `getUsers`: sort the filtered
users, slice out the requested page, and build the response with its
pagination metadata.  `pageNumber`/`pageSize` are `null` (`none`) when the
query parameters are absent. -/
def getUsers (pageNumber pageSize : Option Int) (sortField sortOrder : String)
    (filteredUsers : List ListedUser) : UsersListResponse :=
  let sortedUsers := sortUsers (sortLe sortField sortOrder) filteredUsers
  let startIndex := (toNum pageNumber - 1) * toNum pageSize
  let endIndex := startIndex + toNum pageSize
  let usersForPage := jsSlice sortedUsers startIndex endIndex
  let totalUsers : Int := filteredUsers.length
  { page_number := pageNumber
    page_size := pageSize
    count := filteredUsers.length
    total_pages :=
      if toNum pageSize = 0 then none
      else some (jsCeilDiv totalUsers (toNum pageSize))
    has_previous_page := decide (toNum pageNumber > 1)
    has_next_page := decide (endIndex < totalUsers)
    users := usersForPage }

/-! ### Helper lemmas -/

/-- `updateOne` semantics: when `find?` locates a record, the updated
collection's `find?` locates the transformed record, provided the
transformation does not change whether the predicate holds. -/
theorem find?_updateFirst (p : User → Bool) (f : User → User)
    (hpf : ∀ x, p (f x) = p x) (db : List User) (u : User)
    (h : db.find? p = some u) :
    (updateFirst p f db).find? p = some (f u) := by
  induction db with
  | nil => simp at h
  | cons v vs ih =>
    by_cases hv : p v = true
    · rw [List.find?_cons_of_pos _ hv] at h
      injection h with h
      subst h
      rw [updateFirst, if_pos hv]
      exact List.find?_cons_of_pos _ ((hpf v).trans hv)
    · have hv' : ¬ p v := by simpa using hv
      rw [List.find?_cons_of_neg _ hv'] at h
      rw [updateFirst, if_neg hv']
      rw [List.find?_cons_of_neg _ hv']
      exact ih h

/-- The email predicate used by every repository operation is preserved by
updates that leave the email field alone. -/
theorem emailPred_loginAttempt (email : String) (a now : Int) (x : User) :
    ((({ x with updatedOn := some now, attempt := a } : User)).email == email) =
      (x.email == email) := rfl

/-- The password phase (lines 34–57) can only return the session object, a
`null`, or a `TypeError` — never the `FORBIDDEN` lockout error, which is
thrown earlier. -/
theorem passwordPhase_fst_ne_lockedOut (matcher : String → String → Bool)
    (tokenGen : String → String → String) (now : Int) (db1 : List User)
    (email password : String) (user : Option User) :
    (passwordPhase matcher tokenGen now db1 email password user).1 ≠
      LoginResult.lockedOut := by
  unfold passwordPhase loginFailurePath
  cases user with
  | none =>
    cases h : getUserByEmail db1 email <;> simp [h]
  | some u =>
    by_cases hpw : matcher password u.password = true <;>
      cases h : getUserByEmail db1 email <;>
        simp [hpw, h]

/-! ### Claim theorems -/

/-- C1: the claim says a login attempt with an email that has no user
record never raises an unhandled fault, still runs the password check
against the filler credential, and returns `null`.  The code instead reads
`user.updatedOn` on the `null` lookup result (line 16) and dies with a
`TypeError` before any password check — contradicting its own comment on
lines 34–37 and the null guard on line 38.  This theorem evaluates the
embedded code at the failing input: empty collection, email `x@y.z`. -/
theorem C1_missing_user_faults :
    checkLoginCredentials (fun _ _ => false) (fun _ _ => "") 0 [] "x@y.z" "pw" =
      (LoginResult.typeError, []) := by
  decide

/-- C2: the claim says a successful login leaves the user's attempt counter
at 0 in the repository.  The code returns the session object without ever
calling `loginSuccess` (or `resetAttempt`) on the success path, so a user
who logs in correctly with `attempt = 3` still has `attempt = 3` stored
afterwards.  This theorem evaluates the embedded code at that failing
input. -/
theorem C2_success_keeps_stale_attempt :
    checkLoginCredentials (fun p h => p == "pw" && h == "h") (fun e i => e ++ i)
        1000 [⟨"1", "e@x", "N", "h", 3, none⟩] "e@x" "pw" =
      (LoginResult.success ⟨"e@x", "N", "1", "e@x1"⟩,
       [⟨"1", "e@x", "N", "h", 3, none⟩]) ∧
    (getUserByEmail [(⟨"1", "e@x", "N", "h", 3, none⟩ : User)] "e@x").map
        User.attempt ≠ some 0 := by
  decide

/-- C3: for every user with `attempt > 5` whose `updatedOn` is set and with
`now` strictly before `updatedOn + window` (window = 1·10·1000 ms),
`checkLoginCredentials` throws the lockout error immediately: the result is
`lockedOut` and the collection is returned unchanged, for every password
matcher and token generator (so the matcher is never consulted and neither
`attempt` nor `updatedOn` is mutated). -/
theorem C3_locked_window_rejects (matcher : String → String → Bool)
    (tokenGen : String → String → String) (now : Int) (db : List User)
    (email pw : String) (user : User) (t : Int)
    (hfind : getUserByEmail db email = some user)
    (ht : user.updatedOn = some t)
    (ha : user.attempt > 5)
    (hnow : now < t + 1 * 10 * 1000) :
    checkLoginCredentials matcher tokenGen now db email pw =
      (LoginResult.lockedOut, db) := by
  have hlock : lockoutEval now db email user = none := by
    simp only [lockoutEval, ht]
    rw [if_pos ⟨ha, hnow⟩]
  simp only [checkLoginCredentials, hfind, hlock]

/-- Witness for C3: a user with `attempt = 6`, `updatedOn = 0`, queried at
`now = 5000` (inside the 10 000 ms window) is rejected with the lockout
error and the stored record is untouched. -/
theorem C3_locked_window_rejects_witness :
    checkLoginCredentials (fun _ _ => false) (fun _ _ => "") 5000
        [⟨"1", "e", "N", "h", 6, some 0⟩] "e" "p" =
      (LoginResult.lockedOut, [⟨"1", "e", "N", "h", 6, some 0⟩]) :=
  C3_locked_window_rejects (fun _ _ => false) (fun _ _ => "") 5000
    [⟨"1", "e", "N", "h", 6, some 0⟩] "e" "p" ⟨"1", "e", "N", "h", 6, some 0⟩ 0
    (by decide) rfl (by decide) (by decide)

/-- C4 counterexample: the claim includes the boundary case
`now = updatedOn + window` among those that reset the counter, but both
comparisons in the code are strict (`after30Minutes > now`, then
`after30Minutes < now`), so at exact equality neither branch fires: for a
user with `attempt = 6`, `updatedOn = 0`, at `now = 10000` the lockout
evaluation returns the collection unchanged (the stored attempt is still 6
when the password check runs), and a failed password then stores 7 — not
the 1 that a reset would have produced. -/
theorem C4_boundary_no_reset :
    lockoutEval 10000 [⟨"1", "e", "N", "h", 6, some 0⟩] "e"
        ⟨"1", "e", "N", "h", 6, some 0⟩ =
      some [⟨"1", "e", "N", "h", 6, some 0⟩] ∧
    (getUserByEmail [(⟨"1", "e", "N", "h", 6, some 0⟩ : User)] "e").map
        User.attempt = some 6 ∧
    checkLoginCredentials (fun _ _ => false) (fun _ _ => "") 10000
        [⟨"1", "e", "N", "h", 6, some 0⟩] "e" "p" =
      (LoginResult.noSession, [⟨"1", "e", "N", "h", 7, some 10000⟩]) := by
  decide

/-- C4 (amended): for every user with `attempt > 5`, `updatedOn = t` and
`t + window ≤ now`, the call proceeds to the password check as if
unlocked; when the inequality is strict the collection entering the
password phase is `resetAttempt db email`, in which the user's stored
attempt is 0, and at exact equality the collection is unchanged (no
reset, but also no lockout). -/
theorem C4_expired_window_resets (matcher : String → String → Bool)
    (tokenGen : String → String → String) (now : Int) (db : List User)
    (email pw : String) (user : User) (t : Int)
    (hfind : getUserByEmail db email = some user)
    (ht : user.updatedOn = some t)
    (ha : user.attempt > 5)
    (hnow : t + 1 * 10 * 1000 ≤ now) :
    checkLoginCredentials matcher tokenGen now db email pw =
      passwordPhase matcher tokenGen now
        (if t + 1 * 10 * 1000 < now then resetAttempt db email else db)
        email pw (some user) ∧
    (t + 1 * 10 * 1000 < now →
      (getUserByEmail (resetAttempt db email) email).map User.attempt =
        some 0) := by
  constructor
  · by_cases hlt : t + 1 * 10 * 1000 < now
    · have hlock : lockoutEval now db email user =
          some (resetAttempt db email) := by
        simp only [lockoutEval, ht]
        rw [if_neg (fun hc => absurd hlt (lt_asymm hc.2)), if_pos ⟨ha, hlt⟩]
      simp only [checkLoginCredentials, hfind, hlock, if_pos hlt]
    · have hnlt : ¬ (now < t + 1 * 10 * 1000) := by omega
      have hlock : lockoutEval now db email user = some db := by
        simp only [lockoutEval, ht]
        rw [if_neg (fun hc => hnlt hc.2), if_neg (fun hc => hlt hc.2)]
      simp only [checkLoginCredentials, hfind, hlock, if_neg hlt]
  · intro _
    have h0 : getUserByEmail (resetAttempt db email) email =
        some { user with attempt := 0 } :=
      find?_updateFirst (fun u => u.email == email) (fun x => { x with attempt := 0 }) (fun _ => rfl) db
        user hfind
    rw [h0]
    rfl

/-- Witness for C4's amended theorem: a user with `attempt = 6`,
`updatedOn = 0`, queried at `now = 20000` (strictly past the window) is
handed to the password phase over the reset collection, whose stored
attempt is 0. -/
theorem C4_expired_window_resets_witness :
    checkLoginCredentials (fun _ _ => false) (fun _ _ => "") 20000
        [⟨"1", "e", "N", "h", 6, some 0⟩] "e" "p" =
      passwordPhase (fun _ _ => false) (fun _ _ => "") 20000
        (if (0 : Int) + 1 * 10 * 1000 < 20000 then
          resetAttempt [⟨"1", "e", "N", "h", 6, some 0⟩] "e"
        else [⟨"1", "e", "N", "h", 6, some 0⟩]) "e" "p"
        (some ⟨"1", "e", "N", "h", 6, some 0⟩) ∧
    (getUserByEmail (resetAttempt [⟨"1", "e", "N", "h", 6, some 0⟩] "e")
        "e").map User.attempt = some 0 :=
  ⟨(C4_expired_window_resets (fun _ _ => false) (fun _ _ => "") 20000
      [⟨"1", "e", "N", "h", 6, some 0⟩] "e" "p" ⟨"1", "e", "N", "h", 6, some 0⟩
      0 (by decide) rfl (by decide) (by decide)).1,
   (C4_expired_window_resets (fun _ _ => false) (fun _ _ => "") 20000
      [⟨"1", "e", "N", "h", 6, some 0⟩] "e" "p" ⟨"1", "e", "N", "h", 6, some 0⟩
      0 (by decide) rfl (by decide) (by decide)).2 (by decide)⟩

/-- C5: for every existing user who is not in a lockout-relevant state
(`updatedOn` unset, or `attempt ≤ 5`) and whose supplied password the
matcher rejects, `checkLoginCredentials` returns `null` (no throw) and the
collection afterwards is `loginAttempt db email (attempt + 1) now`, in
which the user's record carries `attempt + 1` and `updatedOn = now`. -/
theorem C5_failed_login_increments (matcher : String → String → Bool)
    (tokenGen : String → String → String) (now : Int) (db : List User)
    (email pw : String) (user : User)
    (hfind : getUserByEmail db email = some user)
    (hunlocked : user.updatedOn = none ∨ user.attempt ≤ 5)
    (hpw : matcher pw user.password = false) :
    checkLoginCredentials matcher tokenGen now db email pw =
      (LoginResult.noSession, loginAttempt db email (user.attempt + 1) now) ∧
    getUserByEmail (loginAttempt db email (user.attempt + 1) now) email =
      some { user with attempt := user.attempt + 1, updatedOn := some now } := by
  have hlock : lockoutEval now db email user = some db := by
    rcases hunlocked with ht | ha
    · simp only [lockoutEval, ht]
    · have ha' : ¬ (user.attempt > 5) := not_lt.mpr ha
      unfold lockoutEval
      cases htu : user.updatedOn with
      | none => rfl
      | some t =>
        simp only
        rw [if_neg (fun hc => ha' hc.1), if_neg (fun hc => ha' hc.1)]
  constructor
  · simp only [checkLoginCredentials, hfind, hlock, passwordPhase, hpw,
      loginFailurePath]
    simp [hfind, loginAttempt]
  · exact find?_updateFirst (fun u => u.email == email)
      (fun x => { x with updatedOn := some now, attempt := user.attempt + 1 })
      (fun _ => rfl) db user hfind

/-- Witness for C5: an existing user with `attempt = 2`, wrong password at
`now = 777`: the call returns `null` and the stored record afterwards has
`attempt = 3` and `updatedOn = 777`. -/
theorem C5_failed_login_increments_witness :
    checkLoginCredentials (fun _ _ => false) (fun _ _ => "") 777
        [⟨"1", "e", "N", "h", 2, some 0⟩] "e" "p" =
      (LoginResult.noSession,
       loginAttempt [⟨"1", "e", "N", "h", 2, some 0⟩] "e" (2 + 1) 777) ∧
    getUserByEmail (loginAttempt [⟨"1", "e", "N", "h", 2, some 0⟩] "e" (2 + 1)
        777) "e" =
      some ⟨"1", "e", "N", "h", 2 + 1, some 777⟩ :=
  C5_failed_login_increments (fun _ _ => false) (fun _ _ => "") 777
    [⟨"1", "e", "N", "h", 2, some 0⟩] "e" "p" ⟨"1", "e", "N", "h", 2, some 0⟩
    (by decide) (Or.inr (by decide)) rfl

/-- C6 counterexample: the claim says `updatedOn` is updated exactly when
the attempt counter is mutated, but `resetAttempt` (like `loginSuccess`)
sets `attempt` to 0 without touching `updatedOn`: on a record with
`attempt = 6`, `updatedOn = 5`, the reset changes the stored attempt while
leaving `updatedOn` at its old value. -/
theorem C6_reset_leaves_updatedOn :
    (getUserByEmail (resetAttempt [⟨"1", "e", "N", "h", 6, some 5⟩] "e")
        "e").map User.attempt ≠
      (getUserByEmail [(⟨"1", "e", "N", "h", 6, some 5⟩ : User)] "e").map
        User.attempt ∧
    (getUserByEmail (resetAttempt [⟨"1", "e", "N", "h", 6, some 5⟩] "e")
        "e").map User.updatedOn =
      (getUserByEmail [(⟨"1", "e", "N", "h", 6, some 5⟩ : User)] "e").map
        User.updatedOn := by
  decide

/-- C6 (amended): for every record the authentication repository mutates,
the attempt counter is never decremented except by a reset to 0, and
`updatedOn` is set by `loginAttempt` whenever it writes the counter, while
the two reset operations (`resetAttempt`, `loginSuccess`) write
`attempt = 0` without updating `updatedOn`. -/
theorem C6_mutation_discipline (db : List User) (email : String) (u : User)
    (a now : Int) (hfind : getUserByEmail db email = some u) :
    getUserByEmail (loginAttempt db email a now) email =
      some { u with attempt := a, updatedOn := some now } ∧
    getUserByEmail (resetAttempt db email) email = some { u with attempt := 0 } ∧
    getUserByEmail (loginSuccess db email) email = some { u with attempt := 0 } :=
  ⟨find?_updateFirst (fun u => u.email == email) (fun x => { x with updatedOn := some now, attempt := a })
      (fun _ => rfl) db u hfind,
   find?_updateFirst (fun u => u.email == email) (fun x => { x with attempt := 0 }) (fun _ => rfl) db u
      hfind,
   find?_updateFirst (fun u => u.email == email) (fun x => { x with attempt := 0 }) (fun _ => rfl) db u
      hfind⟩

/-- Witness for C6's amended theorem at a concrete record. -/
theorem C6_mutation_discipline_witness :
    getUserByEmail (loginAttempt [⟨"1", "e", "N", "h", 6, some 5⟩] "e" 7 42)
        "e" = some ⟨"1", "e", "N", "h", 7, some 42⟩ ∧
    getUserByEmail (resetAttempt [⟨"1", "e", "N", "h", 6, some 5⟩] "e") "e" =
      some ⟨"1", "e", "N", "h", 0, some 5⟩ ∧
    getUserByEmail (loginSuccess [⟨"1", "e", "N", "h", 6, some 5⟩] "e") "e" =
      some ⟨"1", "e", "N", "h", 0, some 5⟩ :=
  C6_mutation_discipline [⟨"1", "e", "N", "h", 6, some 5⟩] "e"
    ⟨"1", "e", "N", "h", 6, some 5⟩ 7 42 (by decide)

/-- Insertion grows the list by one element. -/
theorem length_insertSorted (le : ListedUser → ListedUser → Bool)
    (u : ListedUser) (l : List ListedUser) :
    (insertSorted le u l).length = l.length + 1 := by
  induction l with
  | nil => rfl
  | cons v vs ih =>
    unfold insertSorted
    by_cases h : le u v = true
    · rw [if_pos h]
      rfl
    · rw [if_neg h]
      simp [ih]

/-- Sorting preserves the number of users. -/
theorem length_sortUsers (le : ListedUser → ListedUser → Bool)
    (l : List ListedUser) : (sortUsers le l).length = l.length := by
  induction l with
  | nil => rfl
  | cons u us ih =>
    simp [sortUsers, length_insertSorted, ih]

/-- C7: for every users-list request with `page_size = 2`,
`page_number = 2` and a filtered set of 5 users, `getUsers` answers with
exactly the elements at indices 2 and 3 of the sorted set
(`slice(2, 4)`), `has_previous_page = true`, `has_next_page = true`,
`total_pages = 3` and `count = 5`. -/
theorem C7_page_two_of_five (us : List ListedUser) (sf so : String)
    (h : us.length = 5) :
    getUsers (some 2) (some 2) sf so us =
      { page_number := some 2, page_size := some 2, count := 5,
        total_pages := some 3, has_previous_page := true,
        has_next_page := true,
        users := ((sortUsers (sortLe sf so) us).drop 2).take 2 } := by
  have hlen : (sortUsers (sortLe sf so) us).length = 5 := by
    rw [length_sortUsers, h]
  simp only [getUsers, jsSlice, jsSliceBound, jsCeilDiv, toNum, Option.getD,
    hlen, h]
  norm_num [List.take_drop]
  exact ⟨by decide, rfl⟩

/-- Witness for C7 at a concrete unsorted five-user set, sorted by name
ascending: the third and fourth users in name order are returned. -/
theorem C7_page_two_of_five_witness :
    ([⟨"e@x", "E"⟩, ⟨"c@x", "C"⟩, ⟨"a@x", "A"⟩, ⟨"d@x", "D"⟩,
        ⟨"b@x", "B"⟩] : List ListedUser).length = 5 ∧
    getUsers (some 2) (some 2) "name" "asc"
        [⟨"e@x", "E"⟩, ⟨"c@x", "C"⟩, ⟨"a@x", "A"⟩, ⟨"d@x", "D"⟩,
         ⟨"b@x", "B"⟩] =
      { page_number := some 2, page_size := some 2, count := 5,
        total_pages := some 3, has_previous_page := true,
        has_next_page := true,
        users := ((sortUsers (sortLe "name" "asc")
            [⟨"e@x", "E"⟩, ⟨"c@x", "C"⟩, ⟨"a@x", "A"⟩, ⟨"d@x", "D"⟩,
             ⟨"b@x", "B"⟩]).drop 2).take 2 } :=
  ⟨by decide,
   C7_page_two_of_five
     [⟨"e@x", "E"⟩, ⟨"c@x", "C"⟩, ⟨"a@x", "A"⟩, ⟨"d@x", "D"⟩, ⟨"b@x", "B"⟩]
     "name" "asc" (by decide)⟩

/-- C8 counterexample: the claim says that with `page_number` and
`page_size` absent the response's users array is the entire filtered,
sorted set.  In the code both parameters are `null`, so
`startIndex = (null - 1) * null = -0` and `endIndex = -0 + null = 0`, and
`slice(-0, 0)` is the empty array: on the one-user set below the response
holds `[]`, not the set itself. -/
theorem C8_absent_params_not_all :
    (getUsers absentPageParam absentPageParam "email" "asc"
        [⟨"a@x", "A"⟩]).users ≠
      sortUsers (sortLe "email" "asc") [⟨"a@x", "A"⟩] := by
  decide

/-- C8 (amended): for every users-list request in which `page_number` and
`page_size` are absent (`null`), the users array in the response is empty
— `slice(0, 0)` of the sorted set — while `count` still reports the size
of the entire filtered set. -/
theorem C8_absent_params_empty_page (sf so : String)
    (us : List ListedUser) :
    (getUsers absentPageParam absentPageParam sf so us).users = [] ∧
    (getUsers absentPageParam absentPageParam sf so us).count = us.length := by
  constructor
  · simp [getUsers, absentPageParam, toNum, jsSlice, jsSliceBound]
  · rfl

/-- C9: for every input string, the effective sort field is `email` or
`name` (with `email` as the default outside the whitelist), the effective
sort order is `asc` or `desc` (with `asc` as the default), and a search
field outside the whitelist yields no filter (`null`). -/
theorem C9_whitelist_defaults (field order : String) :
    (isValidSortField field = "email" ∨ isValidSortField field = "name") ∧
    (isValidSortOrder order = "asc" ∨ isValidSortOrder order = "desc") ∧
    (¬(field = "email" ∨ field = "name") →
      isValidSortField field = "email" ∧ isValidSearchField field = none) ∧
    (¬(order = "asc" ∨ order = "desc") → isValidSortOrder order = "asc") := by
  refine ⟨?_, ?_, ?_, ?_⟩
  · unfold isValidSortField
    split_ifs with h
    · exact h
    · exact Or.inl rfl
  · unfold isValidSortOrder
    split_ifs with h
    · exact h
    · exact Or.inl rfl
  · intro h
    unfold isValidSortField isValidSearchField
    rw [if_neg h, if_neg h]
    exact ⟨rfl, rfl⟩
  · intro h
    unfold isValidSortOrder
    rw [if_neg h]

/-- Witness for C9 at the out-of-whitelist inputs `"foo"` and `"bar"`. -/
theorem C9_whitelist_defaults_witness :
    isValidSortField "foo" = "email" ∧ isValidSearchField "foo" = none ∧
    isValidSortOrder "bar" = "asc" :=
  ⟨((C9_whitelist_defaults "foo" "bar").2.2.1 (by decide)).1,
   ((C9_whitelist_defaults "foo" "bar").2.2.1 (by decide)).2,
   (C9_whitelist_defaults "foo" "bar").2.2.2 (by decide)⟩

/-- C10: for every user whose `updatedOn` is unset, the whole lockout
block (lines 16–32) is skipped regardless of the attempt counter: the
collection entering the password phase is unchanged (no reset), the call
is exactly the password phase over the original collection, and its
outcome is never the lockout error. -/
theorem C10_null_updatedOn_skips_lockout (matcher : String → String → Bool)
    (tokenGen : String → String → String) (now : Int) (db : List User)
    (email pw : String) (user : User)
    (hfind : getUserByEmail db email = some user)
    (ht : user.updatedOn = none) :
    lockoutEval now db email user = some db ∧
    checkLoginCredentials matcher tokenGen now db email pw =
      passwordPhase matcher tokenGen now db email pw (some user) ∧
    (checkLoginCredentials matcher tokenGen now db email pw).1 ≠
      LoginResult.lockedOut := by
  have hlock : lockoutEval now db email user = some db := by
    simp only [lockoutEval, ht]
  have hcall : checkLoginCredentials matcher tokenGen now db email pw =
      passwordPhase matcher tokenGen now db email pw (some user) := by
    simp only [checkLoginCredentials, hfind, hlock]
  refine ⟨hlock, hcall, ?_⟩
  rw [hcall]
  exact passwordPhase_fst_ne_lockedOut matcher tokenGen now db email pw
    (some user)

/-- Witness for C10: a user with `attempt = 100` and no `updatedOn` is not
locked out; the call is the plain password phase on the untouched
collection. -/
theorem C10_null_updatedOn_skips_lockout_witness :
    lockoutEval 0 [⟨"1", "e", "N", "h", 100, none⟩] "e"
        ⟨"1", "e", "N", "h", 100, none⟩ =
      some [⟨"1", "e", "N", "h", 100, none⟩] ∧
    checkLoginCredentials (fun _ _ => false) (fun _ _ => "") 0
        [⟨"1", "e", "N", "h", 100, none⟩] "e" "p" =
      passwordPhase (fun _ _ => false) (fun _ _ => "") 0
        [⟨"1", "e", "N", "h", 100, none⟩] "e" "p"
        (some ⟨"1", "e", "N", "h", 100, none⟩) ∧
    (checkLoginCredentials (fun _ _ => false) (fun _ _ => "") 0
        [⟨"1", "e", "N", "h", 100, none⟩] "e" "p").1 ≠
      LoginResult.lockedOut :=
  C10_null_updatedOn_skips_lockout (fun _ _ => false) (fun _ _ => "") 0
    [⟨"1", "e", "N", "h", 100, none⟩] "e" "p" ⟨"1", "e", "N", "h", 100, none⟩
    (by decide) rfl

end UTS
